import Mathlib

/-!
Verification of the SPREE GNSS-SDR fork's acquisition and tracking core.

The development shallowly embeds the two central translation units:

* `pcps_sd_acquisition_cc.cc` — the parallel code-phase-search acquisition
  engine (per-dwell peak extraction, auxiliary-peak selection, multi-dwell
  decision logic);
* `gps_l1_ca_dll_pll_tracking_cc.cc` (`Gps_L1_Ca_Dll_Pll_CADLL_Tracking_cc`)
  — the CADLL tracking engine (code/carrier NCO updates, CADLL promotion,
  amplitude estimation, lock detection, synchronization-record emission).

C++ `float`/`double` arithmetic is embedded over `ℚ` (the claims under
scrutiny concern the algebraic structure of the computations, not rounding
of binary floats); the few genuinely real-valued facts (the arctangent
discriminator) are embedded over `ℝ`.  Outputs of routines whose bodies
live in other translation units (loop filters, correlators, C/A code
generator, CN0 estimator) enter the step functions as explicit inputs or
abstract function parameters, mirroring the call sites.
-/

namespace GnssSdr

/-- C `fmod(x, m)` for `m > 0`, embedded over `ℚ`: the remainder of the
truncated division, carrying the sign of `x`. -/
def fmodQ (x m : ℚ) : ℚ :=
  if 0 ≤ x then x - m * ⌊x / m⌋ else x - m * ⌈x / m⌉

/-- C `round(x)` (round half away from zero), embedded over `ℚ`. -/
def roundC (x : ℚ) : ℤ :=
  if 0 ≤ x then ⌊x + 1/2⌋ else ⌈x - 1/2⌉

theorem fmodQ_nonneg_of_nonneg {x m : ℚ} (hm : 0 < m) (hx : 0 ≤ x) :
    0 ≤ fmodQ x m := by
  rw [fmodQ, if_pos hx]
  have h := Int.sub_floor_div_mul_nonneg x hm
  linarith [h]

theorem fmodQ_lt_of_nonneg {x m : ℚ} (hm : 0 < m) (hx : 0 ≤ x) :
    fmodQ x m < m := by
  rw [fmodQ, if_pos hx]
  have h := Int.sub_floor_div_mul_lt x hm
  linarith [h]

theorem fmodQ_of_neg_gt {x m : ℚ} (hm : 0 < m) (hx : x < 0) (hxm : -m < x) :
    fmodQ x m = x := by
  rw [fmodQ, if_neg (by linarith)]
  have hceil : ⌈x / m⌉ = 0 := by
    rw [Int.ceil_eq_zero_iff]
    constructor
    · show -1 < x / m
      rw [lt_div_iff₀ hm]
      linarith
    · exact le_of_lt (div_neg_of_neg_of_pos hx hm)
  rw [hceil]
  push_cast
  ring

/-!
## Acquisition engine — `pcps_sd_acquisition_cc::general_work`, state 1 (one dwell)
-/

/-- One collected peak of the spoofing-detection acquisition:
normalized magnitude, `code phase` (`i % d_samples_per_code`), `doppler`,
`sample counter` (entries of the `peaks` map in `general_work`). -/
structure SdPeak where
  mag : ℚ
  code_phase : ℤ
  doppler : ℤ
  stamp : ℤ
  deriving DecidableEq

/-- `volk_32f_index_max_16u`: first index attaining the maximum of the
magnitude buffer, together with the value found there. -/
def volkIndexMax (raw : List ℚ) : ℕ × ℚ :=
  (raw.enum).foldl (fun best p => if best.2 < p.2 then p else best) (0, raw.headD 0)

/-- Running per-dwell decision variables of `pcps_sd_acquisition_cc`:
`d_mag`, `d_mag_2nd_highest`, `d_test_statistics` and the recorded
`Acq_delay_samples` / `Acq_doppler_hz` / `Acq_samplestamp_samples`. -/
structure AcqAcc where
  mag : ℚ
  mag2 : ℚ
  ts : ℚ
  delay : ℤ
  dop : ℤ
  stamp : ℤ
  deriving DecidableEq

/-- One Doppler bin of the dwell loop (source lines 288–383): normalize the
bin's maximum by `fft_normalization_factor * fft_normalization_factor`
(where `fft_normalization_factor = fft_size * fft_size`), and record the
global maximum, second-highest, test statistics and synchronization
parameters exactly as lines 344–366 do.  `bin` carries the Doppler
frequency of the bin and the raw `|IFFT|²` magnitude buffer. -/
def binStep (btf : Bool) (power : ℚ) (fft_size : ℕ) (spc : ℤ) (stamp : ℤ)
    (acc : AcqAcc) (bin : ℤ × List ℚ) : AcqAcc :=
  let fnf : ℚ := (fft_size : ℚ) * (fft_size : ℚ)
  let m := volkIndexMax bin.2
  let magt := m.2 / (fnf * fnf)
  if acc.mag < magt then
    let acc' : AcqAcc := { acc with mag2 := acc.mag, mag := magt }
    if acc'.ts < magt / power ∨ btf = false then
      { acc' with delay := (m.1 : ℤ) % spc, dop := bin.1, stamp := stamp,
                  ts := magt / power }
    else acc'
  else acc

/-- The Doppler search loop of one dwell: fold `binStep` over the bins.
At the start of a dwell `d_mag`, `d_mag_2nd_highest` and `d_input_power`
are reset (lines 235–237) but `d_test_statistics` and the recorded
synchronization parameters are carried over from the previous dwell. -/
def acqDwell (btf : Bool) (power : ℚ) (fft_size : ℕ) (spc : ℤ) (stamp : ℤ)
    (bins : List (ℤ × List ℚ)) (carried : AcqAcc) : AcqAcc :=
  bins.foldl (binStep btf power fft_size spc stamp)
    { carried with mag := 0, mag2 := 0 }

/-- Auxiliary-peak acceptance test (source lines 420–430): the candidate is
rejected iff some already-selected pair trips the guard.  NOTE the source
reads `it->first` into **both** `next_code_phase` and `next_doppler`. -/
def auxAccept (spc : ℤ) (sel : List (ℤ × ℤ)) (p : SdPeak) : Bool :=
  sel.all fun q =>
    !(decide (|q.1 - p.code_phase| < 2 * spc) && (q.1 == p.doppler))

/-- Auxiliary-peak acceptance test as the specification words it: the
candidate is acceptable iff, against every already-selected peak, it is
more than `2·samples_per_code` away in code phase or differs in Doppler. -/
def auxAcceptSpec (spc : ℤ) (sel : List (ℤ × ℤ)) (p : SdPeak) : Bool :=
  sel.all fun q =>
    (decide (2 * spc < |q.1 - p.code_phase|)) || !(q.2 == p.doppler)

/-- Auxiliary-peak scan (source lines 399–448), parameterized by the
acceptance test: walk the peaks in descending magnitude; insert the first
`peak` of them into `higher_peaks`; then return the first later candidate
passing the acceptance test (`none` = no auxiliary peak found). -/
def auxScan (accept : ℤ → List (ℤ × ℤ) → SdPeak → Bool) (peak : ℕ) (spc : ℤ) :
    List SdPeak → List (ℤ × ℤ) → ℕ → Option SdPeak
  | [], _, _ => none
  | p :: rest, sel, i =>
    if i < peak then
      auxScan accept peak spc rest (sel ++ [(p.code_phase, p.doppler)]) (i + 1)
    else if accept spc sel p then some p
    else auxScan accept peak spc rest sel i

/-- The auxiliary-peak selection as compiled (with the `it->first` read for
`next_doppler`). -/
def auxSelect (peak : ℕ) (spc : ℤ) (peaks : List SdPeak) : Option SdPeak :=
  auxScan auxAccept peak spc peaks [] 0

/-- The auxiliary-peak selection as specified (Doppler compared against
Doppler). -/
def auxSelectSpec (peak : ℕ) (spc : ℤ) (peaks : List SdPeak) : Option SdPeak :=
  auxScan auxAcceptSpec peak spc peaks [] 0

/-- Post-dwell decision (source lines 451–483), mapping the state-1
variables to the next state: `1` = keep dwelling, `2` = positive,
`3` = negative.  `aux_mode` is `acquire_auxiliary_peaks` (`d_peak > 1`),
`found_peak` the outcome of the auxiliary scan. -/
def acqDecide (btf aux_mode found_peak : Bool) (ts thr : ℚ)
    (well max_dwells : ℕ) : ℕ :=
  if btf = false then
    if aux_mode = true ∧ found_peak = false then 3
    else if thr < ts then 2
    else if well = max_dwells then 3
    else 1
  else
    if well = max_dwells then
      if aux_mode = true ∧ found_peak = false then 3
      else if thr < ts then 2
      else 3
    else 1

/-!
## Tracking engine — `Gps_L1_Ca_Dll_Pll_CADLL_Tracking_cc`

The `#define` constants below are those of the tracking source file itself.
-/

def CN0_ESTIMATION_SAMPLES : ℕ := 20

def MINIMUM_VALID_CN0 : ℚ := 25

def MAXIMUM_LOCK_FAIL_COUNTER : ℕ := 50

def CARRIER_LOCK_THRESHOLD : ℚ := 85/100

/-- Modelled from the spec: `GPS_L1_CA_CODE_LENGTH_CHIPS` of the absent
header `GPS_L1_CA.h` — the 1023-chip C/A spreading-code length. -/
def GPS_L1_CA_CODE_LENGTH_CHIPS : ℚ := 1023

/-- Modelled from the spec: `GPS_L1_CA_CODE_RATE_HZ` of the absent header
`GPS_L1_CA.h` — the 1.023 Mchip/s C/A chip rate. -/
def GPS_L1_CA_CODE_RATE_HZ : ℚ := 1023000

/-- Modelled from the spec: `GPS_L1_FREQ_HZ` of the absent header
`GPS_L1_CA.h` — the 1575.42 MHz L1 carrier. -/
def GPS_L1_FREQ_HZ : ℚ := 1575420000

/-- Modelled from the spec: `GPS_L1_CA_CODE_PERIOD` of the absent header
`GPS_L1_CA.h` — one code period, 1 ms. -/
def GPS_L1_CA_CODE_PERIOD : ℚ := 1/1000

/-- Modelled from the spec: the `GPS_TWO_PI` double of the absent header,
`2π` as a decimal literal. -/
def GPS_TWO_PI_Q : ℚ := 6283185307179586/1000000000000000

/-- The hard-coded initial amplitude ratio `1.284025416687741`
(source line 669). -/
def cadllInitAmpDiv : ℚ := 1284025416687741/1000000000000000

/-- Per-channel tracking parameters and the loop-filter/estimator routines
whose bodies live outside this translation unit; each function models the
output of the named C++ call. -/
structure TrackParams where
  /-- `d_fs_in`. -/
  fs_in : ℚ
  /-- `d_amplitude_loop_filter.get_amplitude_nco`. -/
  ampF : ℚ → ℚ
  /-- `d_amplitude_loop_filter_m.get_amplitude_nco`. -/
  ampFm : ℚ → ℚ

/-- Synchronization record (`Gnss_Synchro` fields written by tracking). -/
structure SyncRecord where
  prompt_I : ℚ
  prompt_Q : ℚ
  ts : ℚ
  code_phase_secs : ℚ
  carrier_phase_rads : ℚ
  carrier_doppler : ℚ
  cn0 : ℚ
  flag_valid : Bool
  deriving DecidableEq

/-- Per-call inputs of `general_work`: the incoming block, summarized by the
outputs of the correlator / discriminator-filter / estimator calls whose
bodies are in other translation units. -/
structure StepInput where
  /-- `std::isnan` on the prompt correlator (line 515). -/
  prompt_isnan : Bool
  /-- `ninput_items[0]`. -/
  samples_available : ℤ
  /-- `(*d_Prompt).real()`. -/
  prompt_re : ℚ
  /-- `(*d_Prompt).imag()`. -/
  prompt_im : ℚ
  /-- `(*d_Prompt_m).real()`. -/
  prompt_m_re : ℚ
  /-- `corr`, the CADLL correlator's power output used as `d_input_power`. -/
  corr : ℚ
  /-- `d_carrier_loop_filter.get_carrier_nco(carr_error_hz)`. -/
  carr_error_filt_hz : ℚ
  /-- `d_code_loop_filter.get_code_nco(code_error_chips)`. -/
  code_error_filt_chips : ℚ
  /-- `d_code_loop_filter_m.get_code_nco(code_error_chips_m)`. -/
  code_error_filt_chips_m : ℚ
  /-- `cn0_svn_estimator(d_Prompt_buffer, …)`. -/
  cn0 : ℚ
  /-- `carrier_lock_detector(d_Prompt_buffer, …)`. -/
  lock_test : ℚ

/-- The mutable tracking-channel state touched by `general_work`. -/
structure TrackState where
  enable_tracking : Bool
  pull_in : Bool
  CADLL_init : Bool
  rem_code_phase_samples : ℚ
  rem_code_phase_samples_m : ℚ
  current_prn_length_samples : ℤ
  current_prn_length_samples_m : ℤ
  sample_counter : ℤ
  sample_counter_m : ℤ
  rem_carr_phase_rad : ℚ
  acc_carrier_phase_rad : ℚ
  carrier_doppler_hz : ℚ
  code_freq_chips : ℚ
  acc_code_phase_secs : ℚ
  acc_code_phase_secs_m : ℚ
  acq_carrier_doppler_hz : ℚ
  acq_code_phase_samples : ℚ
  acq_sample_stamp : ℤ
  /-- The shared `*d_acquisition_gnss_synchro` object. -/
  acq_synchro : SyncRecord
  a1 : ℚ
  a2 : ℚ
  cn0_estimation_counter : ℕ
  carrier_lock_fail_counter : ℕ
  CN0_SNV_dB_Hz : ℚ
  carrier_lock_test : ℚ

/-- Result of one `general_work` call: the new state, the record written to
`*out[0]` (if any), and whether control message `2` was posted. -/
structure StepResult where
  state : TrackState
  emitted : Option SyncRecord
  posted_msg2 : Bool

/-- One lock-detector evaluation (source lines 717–737): bump or decay
`d_carrier_lock_fail_counter` according to the `bad` condition
(`d_carrier_lock_test < threshold or d_CN0_SNV_dB_Hz < MINIMUM_VALID_CN0`);
when the counter exceeds `MAXIMUM_LOCK_FAIL_COUNTER`, post control message
`2` and reset it.  Returns (new counter, posted?). -/
def lockEvalUpdate (bad : Bool) (fail : ℕ) : ℕ × Bool :=
  let f1 := if bad then fail + 1 else if 0 < fail then fail - 1 else fail
  if MAXIMUM_LOCK_FAIL_COUNTER < f1 then (0, true) else (f1, false)

/-- `fail` counter and sticky posted flag after `n` consecutive failing
lock-detector evaluations starting from a zero counter. -/
def runFails : ℕ → ℕ × Bool
  | 0 => (0, false)
  | n+1 =>
      let p := runFails n
      let r := lockEvalUpdate true p.1
      (r.1, p.2 || r.2)

/-- CADLL-mode amplitude estimation (source lines 671–693) with the
division by `t = (*d_Prompt).real() + (*d_Prompt_m).real()` made explicit:
`none` models reaching `d = d_input_power/t` with `t == 0` (the source has
no guard). -/
def cadllAmplitudeChecked (ampF ampFm : ℚ → ℚ) (input_power p_re pm_re : ℚ) :
    Option (ℚ × ℚ) :=
  let t := p_re + pm_re
  if t = 0 then none
  else
    let d := input_power / t
    let Z := d * p_re
    let Z_m := d * pm_re
    some (ampF (Z / (99/100)), ampFm (Z_m / (99/100)))

/-- Pull-in alignment branch (source lines 426–444): consume
`samples_offset` input samples and clear `d_pull_in`; no record emitted. -/
def pullInStep (s : TrackState) : StepResult :=
  let acq_to_trk_delay : ℤ := s.sample_counter - s.acq_sample_stamp
  let acq_trk_shif_correction : ℚ :=
    (s.current_prn_length_samples : ℚ) -
      fmodQ (acq_to_trk_delay : ℚ) (s.current_prn_length_samples : ℚ)
  let samples_offset : ℤ :=
    roundC (s.acq_code_phase_samples + acq_trk_shif_correction)
  let sc := s.sample_counter + samples_offset
  { state := { s with sample_counter := sc, pull_in := false,
                      sample_counter_m := sc },
    emitted := none, posted_msg2 := false }

/-- NaN-skip branch (source lines 515–534): advance the sample counter by
the whole available block and emit a zeroed record (the acquisition
object's remaining fields pass through). -/
def nanSkipStep (P : TrackParams) (inp : StepInput) (s : TrackState) :
    StepResult :=
  let sc := s.sample_counter + inp.samples_available
  { state := { s with sample_counter := sc },
    emitted := some { s.acq_synchro with
      prompt_I := 0, prompt_Q := 0,
      ts := (sc : ℚ) / P.fs_in,
      carrier_phase_rads := 0, code_phase_secs := 0, cn0 := 0,
      flag_valid := false },
    posted_msg2 := false }

/-- Steady-state PRN step of `general_work` (source lines 446–769 plus the
final counter update of lines 936–939). -/
def steadyStep (P : TrackParams) (inp : StepInput) (s : TrackState) :
    StepResult :=
  -- ################## PLL (545–558) ##################
  let carrier_doppler := s.acq_carrier_doppler_hz + inp.carr_error_filt_hz
  let code_freq := GPS_L1_CA_CODE_RATE_HZ +
    carrier_doppler * GPS_L1_CA_CODE_RATE_HZ / GPS_L1_FREQ_HZ
  let acc_carrier := s.acc_carrier_phase_rad +
    GPS_TWO_PI_Q * carrier_doppler * GPS_L1_CA_CODE_PERIOD
  let rem_carr := fmodQ
    (s.rem_carr_phase_rad + GPS_TWO_PI_Q * carrier_doppler * GPS_L1_CA_CODE_PERIOD)
    GPS_TWO_PI_Q
  -- ################## DLL1 (567–573) ##################
  let code_error_filt_secs :=
    GPS_L1_CA_CODE_PERIOD * inp.code_error_filt_chips / GPS_L1_CA_CODE_RATE_HZ
  let acc_code := s.acc_code_phase_secs + code_error_filt_secs
  -- ################## DLL2 (578–587) ##################
  let code_error_filt_secs_m :=
    GPS_L1_CA_CODE_PERIOD * inp.code_error_filt_chips_m / GPS_L1_CA_CODE_RATE_HZ
  let acc_code_m := if s.CADLL_init then s.acc_code_phase_secs_m
    else s.acc_code_phase_secs_m + code_error_filt_secs_m
  -- ########## CARRIER AND CODE NCO BUFFER ALIGNMENT (592–635) ##########
  let T_prn_samples := (1 / code_freq) * GPS_L1_CA_CODE_LENGTH_CHIPS * P.fs_in
  let K_blk := T_prn_samples + s.rem_code_phase_samples +
    code_error_filt_secs * P.fs_in
  -- (line 606 also stores the old primary remainder into
  -- `d_rem_code_phase_samples_m`; that store is dead, line 753
  -- overwrites it before any read)
  let K_blk_m := if s.CADLL_init then K_blk
    else T_prn_samples + s.rem_code_phase_samples_m +
      code_error_filt_secs_m * P.fs_in
  let len : ℤ := roundC K_blk
  let len_m : ℤ := roundC K_blk_m
  -- ################## ALL (651–693) ##################
  let a1a2 : ℚ × ℚ :=
    if s.CADLL_init then
      let f_a1 := P.ampF (inp.corr / (99/100))
      (f_a1, f_a1 / cadllInitAmpDiv)
    else
      let t := inp.prompt_re + inp.prompt_m_re
      let d := inp.corr / t
      (P.ampF (d * inp.prompt_re / (99/100)),
       P.ampFm (d * inp.prompt_m_re / (99/100)))
  -- ####### CN0 ESTIMATION AND LOCK DETECTORS (703–738) #######
  let lockRes : ℕ × ℕ × ℚ × ℚ × Bool :=
    if s.cn0_estimation_counter < CN0_ESTIMATION_SAMPLES then
      (s.cn0_estimation_counter + 1, s.carrier_lock_fail_counter,
       s.CN0_SNV_dB_Hz, s.carrier_lock_test, false)
    else
      let bad : Bool := decide (inp.lock_test < CARRIER_LOCK_THRESHOLD) ||
        decide (inp.cn0 < MINIMUM_VALID_CN0)
      let r := lockEvalUpdate bad s.carrier_lock_fail_counter
      (0, r.1, inp.cn0, inp.lock_test, r.2)
  let posted := lockRes.2.2.2.2
  let enable' := if posted then false else s.enable_tracking
  -- ########### output record (739–769) and CADLL promotion ###########
  let ts := ((s.sample_counter : ℚ) + s.rem_code_phase_samples) / P.fs_in
  let rem' := K_blk - (len : ℚ)
  let rem_m' := K_blk_m - (len : ℚ)
  let promote : Bool := s.CADLL_init && decide (1 < ts)
  let init' := if promote then false else s.CADLL_init
  let acc_code_m' := if promote then acc_code else acc_code_m
  let rem_m'' := if promote then rem' - 27 else rem_m'
  { state := { s with
      CADLL_init := init',
      rem_code_phase_samples := rem',
      rem_code_phase_samples_m := rem_m'',
      current_prn_length_samples := len,
      current_prn_length_samples_m := len_m,
      sample_counter := s.sample_counter + len,
      sample_counter_m := s.sample_counter_m + len_m,
      rem_carr_phase_rad := rem_carr,
      acc_carrier_phase_rad := acc_carrier,
      carrier_doppler_hz := carrier_doppler,
      code_freq_chips := code_freq,
      acc_code_phase_secs := acc_code,
      acc_code_phase_secs_m := acc_code_m',
      a1 := a1a2.1, a2 := a1a2.2,
      cn0_estimation_counter := lockRes.1,
      carrier_lock_fail_counter := lockRes.2.1,
      CN0_SNV_dB_Hz := lockRes.2.2.1,
      carrier_lock_test := lockRes.2.2.2.1,
      enable_tracking := enable' },
    emitted := some { s.acq_synchro with
      prompt_I := inp.prompt_re, prompt_Q := inp.prompt_im,
      ts := ts, code_phase_secs := 0,
      carrier_phase_rads := acc_carrier,
      carrier_doppler := carrier_doppler,
      cn0 := lockRes.2.2.1 },
    posted_msg2 := posted }

/-- Tracking-disabled branch (source lines 839–864 and the final counter
update of lines 936–939): pass the acquisition object through unchanged. -/
def disabledStep (s : TrackState) : StepResult :=
  { state := { s with
      sample_counter := s.sample_counter + s.current_prn_length_samples,
      sample_counter_m := s.sample_counter_m + s.current_prn_length_samples_m },
    emitted := some s.acq_synchro, posted_msg2 := false }

/-- One call of `Gps_L1_Ca_Dll_Pll_CADLL_Tracking_cc::general_work`
(source lines 410–942), dispatching on `d_enable_tracking`, `d_pull_in`
and the NaN check exactly as the source does. -/
def generalWork (P : TrackParams) (inp : StepInput) (s : TrackState) :
    StepResult :=
  if s.enable_tracking then
    if s.pull_in then pullInStep s
    else if inp.prompt_isnan then nanSkipStep P inp s
    else steadyStep P inp s
  else disabledStep s

/-- Iterated tracking run: state after `n` calls of `general_work`, the
`k`-th call seeing inputs `ι k`. -/
def trackRun (P : TrackParams) (iota : ℕ → StepInput) (s0 : TrackState) :
    ℕ → TrackState
  | 0 => s0
  | n+1 => (generalWork P (iota n) (trackRun P iota s0 n)).state

/-- The CADLL promotion guard (source line 755) fires on this call: the call
reaches the steady-state path with `CADLL_init` set and the emitted
`Tracking_timestamp_secs` above one second. -/
def promotes (P : TrackParams) (inp : StepInput) (s : TrackState) : Prop :=
  s.enable_tracking = true ∧ s.pull_in = false ∧ inp.prompt_isnan = false ∧
  s.CADLL_init = true ∧
  1 < ((s.sample_counter : ℚ) + s.rem_code_phase_samples) / P.fs_in

instance (P : TrackParams) (inp : StepInput) (s : TrackState) :
    Decidable (promotes P inp s) := by
  unfold promotes; infer_instance

/-- The primary/secondary mirror relation maintained while `CADLL_init`
holds: equal code-phase remainders and equal PRN block lengths. -/
def mirrors (s : TrackState) : Prop :=
  s.rem_code_phase_samples_m = s.rem_code_phase_samples ∧
  s.current_prn_length_samples_m = s.current_prn_length_samples

/-!
## Local code replica generation — `start_tracking` / `update_local_code*`
-/

/-- The guard-padded local code table `d_ca_code` as seeded by
`start_tracking` (lines 271–273): `gps_l1_ca_code_gen_complex` (body not in
src) fills entries `1..1023` with the chips `chips 0 .. chips 1022`, then
entry `0` receives the value at `1023` and entry `1024` the value at `1`. -/
def caCodeTable {α : Type} (chips : ℕ → α) (j : ℕ) : α :=
  let fill : ℕ → α := fun k => chips (k - 1)
  if j = 0 then fill 1023
  else if j = 1024 then fill 1
  else fill j

/-- `associated_chip_index` at iteration `i` of the `update_local_code`
loop (lines 351–358): `tcode_chips` starts at `-rem_code_phase_chips =
-(rem_code_phase_samples · code_phase_step_chips)` and advances by
`code_phase_step_chips` per iteration. -/
def associatedChipIndex (rem spc step : ℚ) (i : ℕ) : ℤ :=
  1 + roundC (fmodQ (-(rem * step) + (i : ℚ) * step - spc) 1023)

/-- `associated_chip_index` in `update_local_code_m` (lines 314–325), which
additionally wraps a negative index by `1023`. -/
def associatedChipIndexM (rem_m spc step : ℚ) (i : ℕ) : ℤ :=
  let a := 1 + roundC (fmodQ (-(rem_m * step) + (i : ℚ) * step - spc) 1023)
  if a < 0 then 1023 + a else a

/-!
## PLL discriminator chain — source lines 545–553 over `ℝ`
-/

/-- `atan2(y, x)`: the principal argument of `x + iy`. -/
noncomputable def atan2 (y x : ℝ) : ℝ := Complex.arg ⟨x, y⟩

/-- Modelled from the spec: `pll_cloop_two_quadrant_atan` of
`tracking_discriminators` (not in src), `atan2(prompt.imag, prompt.real)`
divided by `2π`. -/
noncomputable def pllDiscriminator (p_re p_im : ℝ) : ℝ :=
  atan2 p_im p_re / (2 * Real.pi)

/-- PLL update of one tracking step (source lines 547–553) with the carrier
loop filter `carrF` abstract: returns
`(carr_error_hz, carrier_doppler_hz, code_freq_chips)`. -/
noncomputable def pllStep (carrF : ℝ → ℝ) (acq_doppler p_re p_im : ℝ) :
    ℝ × ℝ × ℝ :=
  let carr_error_hz := pllDiscriminator p_re p_im / (2 * Real.pi)
  let carr_error_filt_hz := carrF carr_error_hz
  let doppler := acq_doppler + carr_error_filt_hz
  let code_freq := (1023000 : ℝ) + doppler * 1023000 / 1575420000
  (carr_error_hz, doppler, code_freq)


/-!
## Concrete evaluation inputs
-/

/-- A blank acquisition `Gnss_Synchro` object. -/
def acqSync0 : SyncRecord :=
  { prompt_I := 0, prompt_Q := 0, ts := 0, code_phase_secs := 0,
    carrier_phase_rads := 0, carrier_doppler := 0, cn0 := 0,
    flag_valid := false }

/-- A CADLL-mode state (`CADLL_init = false`) whose primary and secondary
code NCOs disagree: `rem = 1/4`, `rem_m = −26.75` (the `−27`-sample
multipath seed plus a quarter sample). -/
def sC2 : TrackState :=
  { enable_tracking := true, pull_in := false, CADLL_init := false,
    rem_code_phase_samples := 1/4, rem_code_phase_samples_m := -107/4,
    current_prn_length_samples := 4000, current_prn_length_samples_m := 4000,
    sample_counter := 0, sample_counter_m := 0,
    rem_carr_phase_rad := 0, acc_carrier_phase_rad := 0,
    carrier_doppler_hz := 0, code_freq_chips := 1023000,
    acc_code_phase_secs := 0, acc_code_phase_secs_m := 0,
    acq_carrier_doppler_hz := 0, acq_code_phase_samples := 0,
    acq_sample_stamp := 0, acq_synchro := acqSync0,
    a1 := 0, a2 := 0, cn0_estimation_counter := 0,
    carrier_lock_fail_counter := 0, CN0_SNV_dB_Hz := 0,
    carrier_lock_test := 0 }

/-- A quiet steady-state input: zero discriminator-filter outputs, valid
prompt. -/
def inpC2 : StepInput :=
  { prompt_isnan := false, samples_available := 0, prompt_re := 1,
    prompt_im := 0, prompt_m_re := 1, corr := 1, carr_error_filt_hz := 0,
    code_error_filt_chips := 0, code_error_filt_chips_m := 0,
    cn0 := 0, lock_test := 0 }

/-- 4 Msps front end (so one Doppler-free PRN period is 4000 samples). -/
def pC2 : TrackParams := { fs_in := 4000000, ampF := id, ampFm := id }

/-- State for the NaN-skip record: half-sample code-phase remainder. -/
def sC4 : TrackState := { sC2 with rem_code_phase_samples := 1/2 }

/-- A NaN-flagged input block of 3 available samples. -/
def inpC4 : StepInput :=
  { inpC2 with prompt_isnan := true, samples_available := 3 }

/-- 2 Hz sample rate (keeps the timestamps legible). -/
def pC4 : TrackParams := { fs_in := 2, ampF := id, ampFm := id }

/-- An initialization-mode state one second in: `CADLL_init` still set and
the emitted timestamp `(2 + 0)/1 = 2 > 1`, so the promotion fires. -/
def sC9 : TrackState :=
  { sC2 with CADLL_init := true, sample_counter := 2,
             rem_code_phase_samples := 0 }

/-- 1 Hz sample rate for the promotion witness. -/
def pC9 : TrackParams := { fs_in := 1, ampF := id, ampFm := id }

/-!
## Theorems
-/

/-- `binStep` with `bit_transition_flag` set never decreases
`d_test_statistics`: the guard on line 356 only lets it be overwritten by a
strictly larger value. -/
theorem binStep_ts_mono (power : ℚ) (N : ℕ) (spc stamp : ℤ)
    (acc : AcqAcc) (bin : ℤ × List ℚ) :
    acc.ts ≤ (binStep true power N spc stamp acc bin).ts := by
  dsimp only [binStep]
  split_ifs with h1 h2
  · rcases h2 with h | h
    · exact le_of_lt h
    · cases h
  · exact le_refl _
  · exact le_refl _

theorem acqDwell_ts_mono_aux (power : ℚ) (N : ℕ) (spc stamp : ℤ)
    (bins : List (ℤ × List ℚ)) (acc : AcqAcc) :
    acc.ts ≤ (bins.foldl (binStep true power N spc stamp) acc).ts := by
  induction bins generalizing acc with
  | nil => exact le_refl _
  | cons b rest ih =>
      exact le_trans (binStep_ts_mono power N spc stamp acc b) (ih _)

/-- **C1** — auxiliary-peak selection.  The claim: a later-ranked candidate
is selected only when, against every already-selected peak, it is more than
`2·samples_per_code` away in code phase or differs in Doppler, and with no
such disjoint peak acquisition is negative.  The compiled code reads
`it->first` (the stored *code phase*) into `next_doppler`, so with
`peak = 1`, `samples_per_code = 2048`, a selected peak at
`(code_phase 500, doppler 0)` and a candidate at `(code_phase 10,
doppler 0)`, the code accepts the candidate (its Doppler `0` differs from
the stored *code phase* `500`), while the specified rule rejects it (same
Doppler, only 490 samples apart), leaving no auxiliary peak and a negative
decision where the code proceeds to a positive one. -/
theorem aux_peak_doppler_misread :
    auxSelect 1 2048 [⟨10, 500, 0, 0⟩, ⟨5, 10, 0, 1⟩] = some ⟨5, 10, 0, 1⟩ ∧
    auxSelectSpec 1 2048 [⟨10, 500, 0, 0⟩, ⟨5, 10, 0, 1⟩] = none ∧
    acqDecide false true true (5 : ℚ) 2 1 2 = 2 ∧
    acqDecide false true false (5 : ℚ) 2 1 2 = 3 := by
  decide

/-- **C3, counterexample** — with `fft_size = 2` and a raw `|IFFT|²` peak of
`16`, the recorded magnitude is `16 / fft_size⁴ = 1`, not
`16 / fft_size² = 4` as the claim states. -/
theorem mag_not_fft_size_sq_normalized :
    (binStep false 1 2 2048 0 ⟨0, 0, 0, 0, 0, 0⟩ (0, [16])).mag = 1 ∧
    (16 : ℚ) / ((2 : ℚ) * 2) ≠ 1 := by
  constructor
  · norm_num [binStep, volkIndexMax]
  · norm_num

/-- **C3, amended** — the per-bin candidate magnitude is the raw squared
magnitude divided by `fft_size⁴` (the square of
`fft_normalization_factor = fft_size²`), and `d_mag` / `d_mag_2nd_highest`
track the maximum and the displaced previous maximum of these candidates. -/
theorem mag_fourth_power_normalization (btf : Bool) (power : ℚ) (N : ℕ)
    (spc stamp dop : ℤ) (acc : AcqAcc) (raw : List ℚ) :
    ((binStep btf power N spc stamp acc (dop, raw)).mag =
      if acc.mag < (volkIndexMax raw).2 / (((N : ℚ) * N) * ((N : ℚ) * N))
      then (volkIndexMax raw).2 / (((N : ℚ) * N) * ((N : ℚ) * N))
      else acc.mag) ∧
    ((binStep btf power N spc stamp acc (dop, raw)).mag2 =
      if acc.mag < (volkIndexMax raw).2 / (((N : ℚ) * N) * ((N : ℚ) * N))
      then acc.mag else acc.mag2) := by
  dsimp only [binStep]
  split_ifs with h1 h2 <;> simp

/-- **C5** — acquisition decision logic with auxiliary-peak mode disabled
(`peak ≤ 1`; the auxiliary override is the subject of C1).  Without
`bit_transition_flag`: positive exactly when `test_statistics > threshold`,
negative exactly when not positive and `well_count == max_dwells`.  With
`bit_transition_flag`: no decision before `well_count == max_dwells`
(with `max_dwells = 2`, two dwells are always consumed), positive after the
final dwell exactly when `test_statistics > threshold`, else negative; and
across the dwells of one attempt `d_test_statistics` is never reset — the
dwell fold can only increase it. -/
theorem acq_decision_logic :
    (∀ (f : Bool) (ts thr : ℚ) (w m : ℕ),
        acqDecide false false f ts thr w m = 2 ↔ thr < ts) ∧
    (∀ (f : Bool) (ts thr : ℚ) (w m : ℕ),
        acqDecide false false f ts thr w m = 3 ↔ (¬ thr < ts ∧ w = m)) ∧
    (∀ (f : Bool) (ts thr : ℚ) (w m : ℕ), w ≠ m →
        acqDecide true false f ts thr w m = 1) ∧
    (∀ (f : Bool) (ts thr : ℚ) (w m : ℕ),
        acqDecide true false f ts thr w m = 2 ↔ (w = m ∧ thr < ts)) ∧
    (∀ (f : Bool) (ts thr : ℚ) (w m : ℕ), w = m → ¬ thr < ts →
        acqDecide true false f ts thr w m = 3) ∧
    (∀ (power : ℚ) (N : ℕ) (spc stamp : ℤ) (bins : List (ℤ × List ℚ))
        (carried : AcqAcc),
        carried.ts ≤ (acqDwell true power N spc stamp bins carried).ts) := by
  refine ⟨?_, ?_, ?_, ?_, ?_, ?_⟩
  · intro f ts thr w m
    simp only [acqDecide]
    split_ifs <;> simp_all
  · intro f ts thr w m
    simp only [acqDecide]
    split_ifs <;> simp_all
  · intro f ts thr w m h
    simp only [acqDecide]
    split_ifs <;> simp_all
  · intro f ts thr w m
    simp only [acqDecide]
    split_ifs <;> simp_all
  · intro f ts thr w m h1 h2
    simp only [acqDecide]
    split_ifs <;> simp_all
  · intro power N spc stamp bins carried
    exact acqDwell_ts_mono_aux power N spc stamp bins _

/-- Witness for `acq_decision_logic` at concrete inputs: a first dwell with
`test_statistics = 3 > threshold = 2` is positive without
`bit_transition_flag`, and still undecided with it when
`well_count = 1 ≠ max_dwells = 2`. -/
theorem acq_decision_logic_witness :
    acqDecide false false true (3 : ℚ) 2 1 5 = 2 ∧
    acqDecide true false true (3 : ℚ) 2 1 2 = 1 := by
  constructor
  · exact (acq_decision_logic.1 true 3 2 1 5).mpr (by norm_num)
  · exact acq_decision_logic.2.2.1 true 3 2 1 2 (by norm_num)

theorem roundC_nonneg {y : ℚ} (h : 0 ≤ y) : 0 ≤ roundC y := by
  rw [roundC, if_pos h]
  exact Int.le_floor.mpr (by push_cast; linarith)

theorem roundC_le_of_lt {y : ℚ} (h0 : 0 ≤ y) (h : y < 1023) :
    roundC y ≤ 1023 := by
  rw [roundC, if_pos h0]
  have h1 : (⌊y + 1/2⌋ : ℚ) < 1024 := lt_of_le_of_lt (Int.floor_le _) (by linarith)
  have h2 : ⌊y + 1/2⌋ < 1024 := by exact_mod_cast h1
  omega

theorem roundC_neg_ge {y : ℚ} (h1 : -(3/2) < y) (h2 : y < 0) :
    -1 ≤ roundC y := by
  rw [roundC, if_neg (by linarith)]
  have h3 : (-2 : ℚ) < (⌈y - 1/2⌉ : ℚ) := lt_of_lt_of_le (by linarith) (Int.le_ceil _)
  have h4 : (-2 : ℤ) < ⌈y - 1/2⌉ := by exact_mod_cast h3
  omega

theorem roundC_neg_le {y : ℚ} (h2 : y < 0) : roundC y ≤ 0 := by
  rw [roundC, if_neg (by linarith)]
  exact Int.ceil_le.mpr (by push_cast; linarith)

/-- Bounds for the raw `1 + round(fmod(tcode_chips − spc, 1023))` index
under the reachable-state hypotheses. -/
theorem aci_core (rem spc step : ℚ) (i : ℕ) (hrem2 : rem < 1)
    (hspc0 : 0 ≤ spc) (hspc : spc ≤ 1/2)
    (hstep0 : 0 < step) (hstep1 : step ≤ 1) :
    0 ≤ 1 + roundC (fmodQ (-(rem * step) + (i : ℚ) * step - spc) 1023) ∧
    1 + roundC (fmodQ (-(rem * step) + (i : ℚ) * step - spc) 1023) ≤ 1024 := by
  set x := -(rem * step) + (i : ℚ) * step - spc with hxdef
  have hml : (-(rem * step) : ℚ) > -step := by nlinarith
  have hi : (0 : ℚ) ≤ (i : ℚ) * step := by positivity
  have hxlb : -(3/2) < x := by
    rw [hxdef]; linarith
  by_cases hx0 : 0 ≤ x
  · have hy0 : 0 ≤ fmodQ x 1023 := fmodQ_nonneg_of_nonneg (by norm_num) hx0
    have hy1 : fmodQ x 1023 < 1023 := fmodQ_lt_of_nonneg (by norm_num) hx0
    have hb1 := roundC_nonneg hy0
    have hb2 := roundC_le_of_lt hy0 hy1
    omega
  · push_neg at hx0
    rw [fmodQ_of_neg_gt (by norm_num) hx0 (by linarith)]
    have hb1 := roundC_neg_ge hxlb hx0
    have hb2 := roundC_neg_le hx0
    omega

/-- **C8** — the guard-padded code table is seeded with the last chip at
index `0` and the first chip at index `1024`, and under the tracking
engine's reachable state (`|rem_code_phase_samples| < 1` sample,
`0 ≤ early_late_spc_chips ≤ 0.5`, and a code-phase step
`code_freq_chips / fs_in` in `(0, 1]`) every `associated_chip_index`
computed by `update_local_code` and `update_local_code_m` lies in
`[0, 1024]`, so no `d_ca_code` access is out of range. -/
theorem ca_code_table_safe {α : Type} (chips : ℕ → α)
    (rem rem_m spc step : ℚ) (i : ℕ)
    (hrem : -1 < rem) (hrem2 : rem < 1)
    (hremm : -1 < rem_m) (hremm2 : rem_m < 1)
    (hspc0 : 0 ≤ spc) (hspc : spc ≤ 1/2)
    (hstep0 : 0 < step) (hstep1 : step ≤ 1) :
    caCodeTable chips 0 = chips 1022 ∧
    caCodeTable chips 1024 = chips 0 ∧
    (0 ≤ associatedChipIndex rem spc step i ∧
     associatedChipIndex rem spc step i ≤ 1024) ∧
    (0 ≤ associatedChipIndexM rem_m spc step i ∧
     associatedChipIndexM rem_m spc step i ≤ 1024) := by
  have h1 := aci_core rem spc step i hrem2 hspc0 hspc hstep0 hstep1
  have h2 := aci_core rem_m spc step i hremm2 hspc0 hspc hstep0 hstep1
  refine ⟨rfl, rfl, ?_, ?_⟩
  · exact h1
  · unfold associatedChipIndexM
    rw [if_neg (by omega)]
    exact h2

/-- Witness for `ca_code_table_safe` at
`rem = rem_m = 0, spc = 0, step = 1, i = 0`. -/
theorem ca_code_table_safe_witness :
    (0 ≤ associatedChipIndex 0 0 1 0 ∧ associatedChipIndex 0 0 1 0 ≤ 1024) ∧
    caCodeTable (fun k => (k : ℤ)) 0 = 1022 :=
  ⟨(ca_code_table_safe (fun k => (k : ℤ)) 0 0 0 1 0 (by norm_num) (by norm_num)
      (by norm_num) (by norm_num) (by norm_num) (by norm_num) (by norm_num)
      (by norm_num)).2.2.1,
   (ca_code_table_safe (fun k => (k : ℤ)) 0 0 0 1 0 (by norm_num) (by norm_num)
      (by norm_num) (by norm_num) (by norm_num) (by norm_num) (by norm_num)
      (by norm_num)).1⟩

/-- **C10** — the CADLL amplitude-estimation step divides `d_input_power`
by `t = (*d_Prompt).real() + (*d_Prompt_m).real()` with no zero guard: the
checked embedding succeeds whenever `t ≠ 0`, fails exactly when `t = 0`,
and correlator values with `Prompt.real = −Prompt_m.real` (here `1` and
`−1`) do reach the division-by-zero branch. -/
theorem cadll_amplitude_guard :
    (∀ (ampF ampFm : ℚ → ℚ) (ip p pm : ℚ), p + pm ≠ 0 →
        (cadllAmplitudeChecked ampF ampFm ip p pm).isSome = true) ∧
    (∀ (ampF ampFm : ℚ → ℚ) (ip p pm : ℚ), p + pm = 0 →
        cadllAmplitudeChecked ampF ampFm ip p pm = none) ∧
    cadllAmplitudeChecked id id 1 1 (-1) = none := by
  refine ⟨?_, ?_, ?_⟩
  · intro ampF ampFm ip p pm h
    simp [cadllAmplitudeChecked, h]
  · intro ampF ampFm ip p pm h
    simp [cadllAmplitudeChecked, h]
  · norm_num [cadllAmplitudeChecked]

/-- Witness for `cadll_amplitude_guard`: with prompt reals `1` and `1` the
divisor is `2 ≠ 0` and the amplitude step is defined. -/
theorem cadll_amplitude_guard_witness :
    (cadllAmplitudeChecked id id 1 1 1).isSome = true :=
  cadll_amplitude_guard.1 id id 1 1 1 (by norm_num)

/-- **C7, counterexample** — under the spec's own definition of
`pll_cloop_two_quadrant_atan` (which already divides by `2π`), the caller's
further division by `GPS_TWO_PI` (line 547) makes
`carr_error_hz = atan2/(2π)²`: at a prompt of `0 + 1i` the code computes
`1/(8π)` where the claim's `atan2(P.imag, P.real)/(2π)` is `1/4`, and the
two differ. -/
theorem carr_error_not_single_two_pi :
    (pllStep id 0 0 1).1 = 1 / (8 * Real.pi) ∧
    atan2 1 0 / (2 * Real.pi) = 1 / 4 ∧
    (1 : ℝ) / (8 * Real.pi) ≠ 1 / 4 := by
  have hpi : Real.pi ≠ 0 := Real.pi_ne_zero
  have harg : atan2 1 0 = Real.pi / 2 := by
    show Complex.arg ⟨0, 1⟩ = Real.pi / 2
    rw [show (⟨0, 1⟩ : ℂ) = Complex.I from rfl, Complex.arg_I]
  refine ⟨?_, ?_, ?_⟩
  · simp only [pllStep, pllDiscriminator, harg, id]
    field_simp
    ring
  · rw [harg]
    field_simp
    ring
  · intro h
    have h3 := Real.pi_gt_three
    rw [div_eq_div_iff (by positivity) (by norm_num)] at h
    linarith

/-- **C7, amended** — on every steady-state step the PLL computes
`carr_error_hz = pll_cloop_two_quadrant_atan(P)/(2π)
= atan2(P.imag, P.real)/(2π)²` (given the spec's discriminator),
`carrier_doppler_hz = Acq_doppler_hz + PLL_filter(carr_error_hz)`, and
`code_freq_chips = GPS_L1_CA_CODE_RATE_HZ·(1 + carrier_doppler_hz/GPS_L1_FREQ_HZ)`. -/
theorem pll_step_equations (F : ℝ → ℝ) (acq p_re p_im : ℝ) :
    (pllStep F acq p_re p_im).1 =
      atan2 p_im p_re / ((2 * Real.pi) * (2 * Real.pi)) ∧
    (pllStep F acq p_re p_im).2.1 = acq + F ((pllStep F acq p_re p_im).1) ∧
    (pllStep F acq p_re p_im).2.2 =
      1023000 * (1 + (pllStep F acq p_re p_im).2.1 / 1575420000) := by
  refine ⟨?_, rfl, ?_⟩
  · simp only [pllStep, pllDiscriminator]
    rw [div_div]
  · simp only [pllStep]
    ring

theorem lockEvalUpdate_reset (bad : Bool) (f : ℕ)
    (h : (lockEvalUpdate bad f).2 = true) : (lockEvalUpdate bad f).1 = 0 := by
  simp only [lockEvalUpdate] at h ⊢
  split_ifs at h ⊢ <;> simp_all

theorem runFails_le_max (n : ℕ) (h : n ≤ 50) : runFails n = (n, false) := by
  induction n with
  | zero => rfl
  | succ k ih =>
      rw [runFails, ih (by omega)]
      have hlt : ¬ 50 < k + 1 := by omega
      simp [lockEvalUpdate, MAXIMUM_LOCK_FAIL_COUNTER, hlt]

theorem runFails_sticky (n : ℕ) (h : (runFails n).2 = true) :
    (runFails (n + 1)).2 = true := by
  rw [runFails]
  simp [h]

theorem runFails_ge (n : ℕ) (h : 51 ≤ n) : (runFails n).2 = true := by
  induction n with
  | zero => omega
  | succ k ih =>
      rcases Nat.lt_or_ge k 51 with hk | hk
      · have hk50 : k = 50 := by omega
        subst hk50
        rw [runFails, runFails_le_max 50 (le_refl _)]
        simp [lockEvalUpdate, MAXIMUM_LOCK_FAIL_COUNTER]
      · exact runFails_sticky k (ih hk)

theorem steadyStep_posted_effects (P : TrackParams) (inp : StepInput)
    (s : TrackState) (h : (steadyStep P inp s).posted_msg2 = true) :
    (steadyStep P inp s).state.enable_tracking = false ∧
    (steadyStep P inp s).state.carrier_lock_fail_counter = 0 := by
  by_cases hc : s.cn0_estimation_counter < CN0_ESTIMATION_SAMPLES
  · dsimp only [steadyStep] at h
    simp only [if_pos hc] at h
    cases h
  · dsimp only [steadyStep] at h ⊢
    simp only [if_neg hc] at h ⊢
    exact ⟨by simp [h], lockEvalUpdate_reset _ _ h⟩

theorem steadyStep_no_post_filling (P : TrackParams) (inp : StepInput)
    (s : TrackState) (hc : s.cn0_estimation_counter < CN0_ESTIMATION_SAMPLES) :
    (steadyStep P inp s).posted_msg2 = false := by
  dsimp only [steadyStep]
  simp only [if_pos hc]

/-- **C6, counterexample** — fifty consecutive failing lock-detector
evaluations from a zero `d_carrier_lock_fail_counter` leave the counter at
exactly `MAXIMUM_LOCK_FAIL_COUNTER = 50` and post nothing: persistence for
50 evaluations does **not** declare loss of lock. -/
theorem lock_loss_not_at_fifty :
    (runFails MAXIMUM_LOCK_FAIL_COUNTER).2 = false ∧
    (runFails MAXIMUM_LOCK_FAIL_COUNTER).1 = MAXIMUM_LOCK_FAIL_COUNTER := by
  decide

/-- **C6, amended** — loss of lock is declared exactly when the failing
condition (CN0 `< 25` or lock test `< 0.85`) has persisted for
`MAXIMUM_LOCK_FAIL_COUNTER + 1 = 51` lock-detector evaluations, i.e. when
the fail counter exceeds the limit: from a counter at the reachable bound
`≤ 50`, an evaluation posts control message 2 iff it fails with the counter
already at 50; on the trip the counter resets to 0 and `general_work`
clears `d_enable_tracking`; no message is posted while the counter stays at
or below the limit, nor on a buffer-filling call. -/
theorem lock_loss_threshold_exceeded :
    (∀ (bad : Bool) (f : ℕ), f ≤ MAXIMUM_LOCK_FAIL_COUNTER →
        ((lockEvalUpdate bad f).2 = true ↔
          (bad = true ∧ f = MAXIMUM_LOCK_FAIL_COUNTER))) ∧
    (∀ (bad : Bool) (f : ℕ), (lockEvalUpdate bad f).2 = true →
        (lockEvalUpdate bad f).1 = 0) ∧
    (∀ (bad : Bool) (f : ℕ), f ≤ MAXIMUM_LOCK_FAIL_COUNTER →
        (lockEvalUpdate bad f).1 ≤ MAXIMUM_LOCK_FAIL_COUNTER) ∧
    (∀ n, (runFails n).2 = true ↔ MAXIMUM_LOCK_FAIL_COUNTER + 1 ≤ n) ∧
    (∀ (P : TrackParams) (inp : StepInput) (s : TrackState),
        (generalWork P inp s).posted_msg2 = true →
        ((generalWork P inp s).state.enable_tracking = false ∧
         (generalWork P inp s).state.carrier_lock_fail_counter = 0)) ∧
    (∀ (P : TrackParams) (inp : StepInput) (s : TrackState),
        s.enable_tracking = true → s.pull_in = false →
        inp.prompt_isnan = false →
        s.cn0_estimation_counter < CN0_ESTIMATION_SAMPLES →
        (generalWork P inp s).posted_msg2 = false) := by
  refine ⟨?_, ?_, ?_, ?_, ?_, ?_⟩
  · intro bad f h
    cases bad <;>
      simp only [lockEvalUpdate, MAXIMUM_LOCK_FAIL_COUNTER] at h ⊢ <;>
      split_ifs <;> simp_all <;> omega
  · intro bad f h
    exact lockEvalUpdate_reset bad f h
  · intro bad f h
    simp only [lockEvalUpdate, MAXIMUM_LOCK_FAIL_COUNTER] at h ⊢
    split_ifs <;> omega
  · intro n
    constructor
    · intro h
      by_contra hn
      push_neg at hn
      rw [runFails_le_max n (by simpa [MAXIMUM_LOCK_FAIL_COUNTER] using Nat.lt_succ_iff.mp hn)] at h
      cases h
    · intro h
      exact runFails_ge n h
  · intro P inp s h
    unfold generalWork at h ⊢
    split_ifs at h ⊢ with h1 h2 h3
    · simp [pullInStep] at h
    · simp [nanSkipStep] at h
    · exact steadyStep_posted_effects P inp s h
    · simp [disabledStep] at h
  · intro P inp s he hp hn hc
    unfold generalWork
    rw [if_pos he, if_neg (by simp [hp]), if_neg (by simp [hn])]
    exact steadyStep_no_post_filling P inp s hc

/-- Witness for `lock_loss_threshold_exceeded`: a failing evaluation with
the counter at exactly 50 posts the message. -/
theorem lock_loss_threshold_exceeded_witness :
    (lockEvalUpdate true MAXIMUM_LOCK_FAIL_COUNTER).2 = true :=
  (lock_loss_threshold_exceeded.1 true MAXIMUM_LOCK_FAIL_COUNTER
    (le_refl _)).mpr ⟨rfl, rfl⟩

/-- **C2** — steady-state code NCO update, evaluated in CADLL mode at
`fs_in = 4 Msps`, zero Doppler and zero filter outputs, `rem = 1/4`,
`rem_m = −107/4`.  Then `T_prn_samples = 4000`, `K_blk = 16001/4`,
`K_blk_m = 15893/4`; the code rounds both lengths
(`4000` and `3973`) and sets the primary remainder to
`K_blk − 4000 = 1/4` as claimed, but line 753 sets the secondary remainder
to `K_blk_m − current_prn_length_samples = 15893/4 − 4000 = −107/4`,
subtracting the **primary** length, not
`K_blk_m − current_prn_length_samples_m = 15893/4 − 3973 = 1/4` as the
claim (and the adjacent `rounding error < 1 sample` comment) require. -/
theorem nco_secondary_rem_subtracts_primary_length :
    (generalWork pC2 inpC2 sC2).state.current_prn_length_samples = 4000 ∧
    (generalWork pC2 inpC2 sC2).state.rem_code_phase_samples = 1/4 ∧
    (generalWork pC2 inpC2 sC2).state.current_prn_length_samples_m = 3973 ∧
    (generalWork pC2 inpC2 sC2).state.rem_code_phase_samples_m =
      15893/4 - 4000 ∧
    (generalWork pC2 inpC2 sC2).state.rem_code_phase_samples_m ≠
      15893/4 - 3973 := by
  norm_num [generalWork, steadyStep, sC2, inpC2, pC2, roundC, fmodQ,
    GPS_L1_CA_CODE_RATE_HZ, GPS_L1_FREQ_HZ, GPS_L1_CA_CODE_LENGTH_CHIPS,
    GPS_L1_CA_CODE_PERIOD, GPS_TWO_PI_Q, CN0_ESTIMATION_SAMPLES, acqSync0]

/-- **C4, counterexample** — the NaN-skip record violates
`Tracking_timestamp_secs = (sample_counter + rem_code_phase_samples)/fs_in`:
with the counter at `0`, `rem = 1/2`, `fs_in = 2` and 3 available samples,
the code stamps `(0 + 3)/2 = 3/2` (counter plus the whole skipped block, no
remainder term) where the claim demands `(0 + 1/2)/2 = 1/4`. -/
theorem timestamp_nan_record_counterexample :
    ((generalWork pC4 inpC4 sC4).emitted.map SyncRecord.ts) = some (3/2) ∧
    ((sC4.sample_counter : ℚ) + sC4.rem_code_phase_samples) / pC4.fs_in
      = 1/4 ∧
    ((3 : ℚ)/2) ≠ 1/4 := by
  refine ⟨?_, ?_, by norm_num⟩
  · norm_num [generalWork, nanSkipStep, sC4, sC2, inpC4, inpC2, pC4, acqSync0]
  · norm_num [sC4, sC2, pC4]

/-- **C4, amended** — the steady-state record satisfies
`Tracking_timestamp_secs = (sample_counter + rem_code_phase_samples)/fs_in`
with the values at the start of the PRN period; the NaN-skip record instead
stamps `(sample_counter + samples_available)/fs_in` with no remainder term;
and while tracking is disabled the unmodified acquisition object is
emitted, its timestamp untouched. -/
theorem timestamp_emission_cases (P : TrackParams) (inp : StepInput)
    (s : TrackState) :
    (s.enable_tracking = true → s.pull_in = false →
      inp.prompt_isnan = false →
      ∃ r, (generalWork P inp s).emitted = some r ∧
        r.ts = ((s.sample_counter : ℚ) + s.rem_code_phase_samples)
          / P.fs_in) ∧
    (s.enable_tracking = true → s.pull_in = false →
      inp.prompt_isnan = true →
      ∃ r, (generalWork P inp s).emitted = some r ∧
        r.ts = ((s.sample_counter : ℚ) + (inp.samples_available : ℚ))
          / P.fs_in) ∧
    (s.enable_tracking = false →
      (generalWork P inp s).emitted = some s.acq_synchro) := by
  refine ⟨?_, ?_, ?_⟩
  · intro he hp hn
    unfold generalWork
    rw [if_pos he, if_neg (by simp [hp]), if_neg (by simp [hn])]
    exact ⟨_, rfl, rfl⟩
  · intro he hp hn
    unfold generalWork
    rw [if_pos he, if_neg (by simp [hp]), if_pos (by simp [hn])]
    refine ⟨_, rfl, ?_⟩
    show ((s.sample_counter + inp.samples_available : ℤ) : ℚ) / P.fs_in = _
    push_cast
    ring
  · intro he
    unfold generalWork
    rw [if_neg (by simp [he])]
    rfl

/-- Witness for `timestamp_emission_cases`: the steady-state record at the
concrete CADLL-mode state carries the claimed timestamp. -/
theorem timestamp_emission_cases_witness :
    ∃ r, (generalWork pC2 inpC2 sC2).emitted = some r ∧
      r.ts = ((sC2.sample_counter : ℚ) + sC2.rem_code_phase_samples)
        / pC2.fs_in :=
  (timestamp_emission_cases pC2 inpC2 sC2).1 rfl rfl rfl

theorem cadll_init_mono (P : TrackParams) (inp : StepInput) (s : TrackState)
    (h : s.CADLL_init = false) :
    (generalWork P inp s).state.CADLL_init = false := by
  unfold generalWork
  split_ifs with h1 h2 h3
  · simpa [pullInStep] using h
  · simpa [nanSkipStep] using h
  · dsimp only [steadyStep]
    simp [h]
  · simpa [disabledStep] using h

theorem cadll_promote_effects (P : TrackParams) (inp : StepInput)
    (s : TrackState) (h : promotes P inp s) :
    (generalWork P inp s).state.CADLL_init = false ∧
    (generalWork P inp s).state.rem_code_phase_samples_m =
      (generalWork P inp s).state.rem_code_phase_samples - 27 ∧
    (generalWork P inp s).state.acc_code_phase_secs_m =
      (generalWork P inp s).state.acc_code_phase_secs := by
  obtain ⟨he, hp, hn, hi, hts⟩ := h
  unfold generalWork
  rw [if_pos he, if_neg (by simp [hp]), if_neg (by simp [hn])]
  dsimp only [steadyStep]
  simp [hi, hts]

theorem cadll_init_false_run (P : TrackParams) (iota : ℕ → StepInput)
    (s0 : TrackState) (n : ℕ)
    (h : (trackRun P iota s0 n).CADLL_init = false) :
    ∀ m, n ≤ m → (trackRun P iota s0 m).CADLL_init = false := by
  intro m hm
  induction m with
  | zero =>
      have hn0 : n = 0 := Nat.le_zero.mp hm
      exact hn0 ▸ h
  | succ k ih =>
      rcases Nat.lt_or_ge n (k + 1) with hlt | hge
      · rw [trackRun]
        exact cadll_init_mono P (iota k) _ (ih (by omega))
      · have hnk : n = k + 1 := by omega
        exact hnk ▸ h

theorem promotes_once_aux (P : TrackParams) (iota : ℕ → StepInput)
    (s0 : TrackState) (n m : ℕ) (hnm : n < m)
    (hn : promotes P (iota n) (trackRun P iota s0 n)) :
    ¬ promotes P (iota m) (trackRun P iota s0 m) := by
  intro hm
  have h1 : (trackRun P iota s0 (n + 1)).CADLL_init = false := by
    rw [trackRun]
    exact (cadll_promote_effects P (iota n) _ hn).1
  have h2 := cadll_init_false_run P iota s0 (n + 1) h1 m (by omega)
  exact absurd hm.2.2.2.1 (by simp [h2])

theorem cadll_mirror_step (P : TrackParams) (inp : StepInput)
    (s : TrackState) (hi : s.CADLL_init = true)
    (hnp : ¬ promotes P inp s) :
    (generalWork P inp s).state.CADLL_init = true ∧
    (mirrors s → mirrors (generalWork P inp s).state) := by
  unfold generalWork
  split_ifs with h1 h2 h3
  · constructor
    · simpa [pullInStep] using hi
    · intro hm
      simpa [pullInStep, mirrors] using hm
  · constructor
    · simpa [nanSkipStep] using hi
    · intro hm
      simpa [nanSkipStep, mirrors] using hm
  · have hts : ¬ (1 < ((s.sample_counter : ℚ) + s.rem_code_phase_samples)
        / P.fs_in) := by
      intro hts
      exact hnp ⟨h1, by simpa using h2, by simpa using h3, hi, hts⟩
    constructor
    · dsimp only [steadyStep]
      simp [hi, hts]
    · intro _
      dsimp only [steadyStep]
      simp [mirrors, hi, hts]
  · constructor
    · simpa [disabledStep] using hi
    · intro hm
      simpa [disabledStep, mirrors] using hm

theorem cadll_mirror_run (P : TrackParams) (iota : ℕ → StepInput)
    (s0 : TrackState) (n : ℕ) (hi : s0.CADLL_init = true)
    (hm : mirrors s0)
    (hnf : ∀ k, k < n → ¬ promotes P (iota k) (trackRun P iota s0 k)) :
    (trackRun P iota s0 n).CADLL_init = true ∧
    mirrors (trackRun P iota s0 n) := by
  induction n with
  | zero => exact ⟨hi, hm⟩
  | succ k ih =>
      have hprev := ih (fun j hj => hnf j (by omega))
      rw [trackRun]
      have hstep := cadll_mirror_step P (iota k) _ hprev.1
        (hnf k (by omega))
      exact ⟨hstep.1, hstep.2 hprev.2⟩

/-- **C9** — the CADLL promotion is a one-shot transition: once
`CADLL_init` is cleared no step re-enables it; on the promoting step
(`CADLL_init` set, emitted timestamp `> 1` s on the steady path) the flag
clears, the secondary remainder is seeded `27` samples below the primary's
new value and the secondary accumulated code phase is copied from the
primary; the promotion fires at most once along any run; and until it
fires the secondary mirrors the primary (equal remainders and block
lengths). -/
theorem cadll_promotion_one_shot :
    (∀ (P : TrackParams) (inp : StepInput) (s : TrackState),
        s.CADLL_init = false →
        (generalWork P inp s).state.CADLL_init = false) ∧
    (∀ (P : TrackParams) (inp : StepInput) (s : TrackState),
        promotes P inp s →
        ((generalWork P inp s).state.CADLL_init = false ∧
         (generalWork P inp s).state.rem_code_phase_samples_m =
           (generalWork P inp s).state.rem_code_phase_samples - 27 ∧
         (generalWork P inp s).state.acc_code_phase_secs_m =
           (generalWork P inp s).state.acc_code_phase_secs)) ∧
    (∀ (P : TrackParams) (iota : ℕ → StepInput) (s0 : TrackState) (n m : ℕ),
        promotes P (iota n) (trackRun P iota s0 n) →
        promotes P (iota m) (trackRun P iota s0 m) → n = m) ∧
    (∀ (P : TrackParams) (iota : ℕ → StepInput) (s0 : TrackState) (n : ℕ),
        s0.CADLL_init = true → mirrors s0 →
        (∀ k, k < n → ¬ promotes P (iota k) (trackRun P iota s0 k)) →
        ((trackRun P iota s0 n).CADLL_init = true ∧
         mirrors (trackRun P iota s0 n))) := by
  refine ⟨cadll_init_mono, cadll_promote_effects, ?_, cadll_mirror_run⟩
  intro P iota s0 n m hn hm
  rcases Nat.lt_trichotomy n m with h | h | h
  · exact absurd hm (promotes_once_aux P iota s0 n m h hn)
  · exact h
  · exact absurd hn (promotes_once_aux P iota s0 m n h hm)

/-- Witness for `cadll_promotion_one_shot`: the promotion effects at a
concrete initialization-mode state with timestamp `2 > 1`. -/
theorem cadll_promotion_one_shot_witness :
    (generalWork pC9 inpC2 sC9).state.CADLL_init = false ∧
    (generalWork pC9 inpC2 sC9).state.rem_code_phase_samples_m =
      (generalWork pC9 inpC2 sC9).state.rem_code_phase_samples - 27 ∧
    (generalWork pC9 inpC2 sC9).state.acc_code_phase_secs_m =
      (generalWork pC9 inpC2 sC9).state.acc_code_phase_secs :=
  cadll_promotion_one_shot.2.1 pC9 inpC2 sC9
    ⟨rfl, rfl, rfl, rfl, by norm_num [sC9, sC2, pC9]⟩

end GnssSdr

